import Mathlib

/-
Verification of the OpenMarket retail backend core (app/core/models.py and
app/core/services.py) via a shallow embedding in Lean 4.

Modelling conventions:
  * Python `Decimal` values are embedded as rationals (`ℚ`).  The source
    quantizes money to 2 decimals and quantities to 4 decimals with
    ROUND_HALF_UP (ties away from zero); this is `as_money` / `as_qtd` below,
    both built on `halfUp`.
  * Database rows are records; nullable references are `Option`; the
    SQLAlchemy session plus commit/rollback of a service call is an
    `Except String` result: `.error` is a raised domain error, and by
    construction of the embedding an `.error` outcome leaves every modelled
    row unchanged (full-transaction rollback, as in services.transaction()).
  * Timestamps are abstract integers (only order comparisons are used).
  * The JSON promo rule payload `regra_json` is embedded as the tagged union
    `RegraPromo` (per the spec's design note on polymorphic payloads):
    `desconto_percentual` with its numeric value, and `outra` for every other
    payload, which the source does not interpret.
-/

namespace OpenMarket

/-! ## Ledger primitives (models.py: `_as_money`, `_as_qtd`, `normalize_ean`) -/

/-- ROUND_HALF_UP to an integer: round to nearest, ties away from zero. -/
def halfUp (x : ℚ) : ℤ := if 0 ≤ x then ⌊x + 1/2⌋ else -⌊-x + 1/2⌋

/-- Quantize `x` to multiples of `1/s`, rounding half away from zero. -/
def quantize (s : ℤ) (x : ℚ) : ℚ := ((halfUp (x * (s : ℚ)) : ℤ) : ℚ) / (s : ℚ)

/-- models.py `_as_money`: `Decimal.quantize(Decimal("0.01"), ROUND_HALF_UP)`. -/
def as_money (x : ℚ) : ℚ := quantize 100 x

/-- models.py `_as_qtd`: `Decimal.quantize(Decimal("0.0001"), ROUND_HALF_UP)`. -/
def as_qtd (x : ℚ) : ℚ := quantize 10000 x

/-- models.py `normalize_ean`: `None`/empty falsy input gives `None`, otherwise
strip the non-digit characters and return `None` when nothing remains. -/
def normalize_ean (ean : Option String) : Option String :=
  match ean with
  | none => none
  | some s =>
    if s = "" then none
    else
      let digits : String := ⟨s.data.filter Char.isDigit⟩
      if digits = "" then none else some digits

/-- models.py `Product._val_ean`: reject a normalized EAN whose length is not
8, 12, 13 or 14 with the domain error "EAN inválido". -/
def val_ean (value : Option String) : Except String (Option String) :=
  match normalize_ean value with
  | none => .ok none
  | some v =>
    if v.length = 8 ∨ v.length = 12 ∨ v.length = 13 ∨ v.length = 14 then .ok (some v)
    else .error "EAN inválido"

/-! ### Quantization lemmas -/

lemma halfUp_intCast (n : ℤ) : halfUp (n : ℚ) = n := by
  unfold halfUp
  split
  · rw [Int.floor_int_add]
    norm_num
  · have h : (-(n : ℚ)) = ((-n : ℤ) : ℚ) := by push_cast; ring
    rw [h, Int.floor_int_add]
    norm_num

lemma quantize_int_div (s : ℤ) (hs : (s : ℚ) ≠ 0) (n : ℤ) :
    quantize s ((n : ℚ) / (s : ℚ)) = (n : ℚ) / (s : ℚ) := by
  unfold quantize
  have h : ((n : ℚ) / (s : ℚ)) * (s : ℚ) = (n : ℚ) := by field_simp
  rw [h, halfUp_intCast]

lemma exists_int_of_quantize_fix {s : ℤ} {x : ℚ} (h : quantize s x = x) :
    ∃ n : ℤ, x = (n : ℚ) / (s : ℚ) :=
  ⟨halfUp (x * (s : ℚ)), h.symm⟩

lemma quantize_fix_add {s : ℤ} (hs : (s : ℚ) ≠ 0) {x y : ℚ}
    (hx : quantize s x = x) (hy : quantize s y = y) : quantize s (x + y) = x + y := by
  obtain ⟨a, ha⟩ := exists_int_of_quantize_fix hx
  obtain ⟨b, hb⟩ := exists_int_of_quantize_fix hy
  subst ha hb
  have h : (a : ℚ) / (s : ℚ) + (b : ℚ) / (s : ℚ) = ((a + b : ℤ) : ℚ) / (s : ℚ) := by
    push_cast; ring
  rw [h, quantize_int_div s hs]

lemma quantize_fix_sub {s : ℤ} (hs : (s : ℚ) ≠ 0) {x y : ℚ}
    (hx : quantize s x = x) (hy : quantize s y = y) : quantize s (x - y) = x - y := by
  obtain ⟨a, ha⟩ := exists_int_of_quantize_fix hx
  obtain ⟨b, hb⟩ := exists_int_of_quantize_fix hy
  subst ha hb
  have h : (a : ℚ) / (s : ℚ) - (b : ℚ) / (s : ℚ) = ((a - b : ℤ) : ℚ) / (s : ℚ) := by
    push_cast; ring
  rw [h, quantize_int_div s hs]

lemma halfUp_nonneg {x : ℚ} (h : 0 ≤ x) : 0 ≤ halfUp x := by
  unfold halfUp
  rw [if_pos h]
  exact Int.le_floor.mpr (by push_cast; linarith)

lemma quantize_nonneg {s : ℤ} (hs : 0 < s) {x : ℚ} (h : 0 ≤ x) : 0 ≤ quantize s x := by
  unfold quantize
  have hs' : (0 : ℚ) < (s : ℚ) := by exact_mod_cast hs
  have hnum : (0 : ℚ) ≤ ((halfUp (x * (s : ℚ)) : ℤ) : ℚ) := by
    have := halfUp_nonneg (mul_nonneg h (le_of_lt hs'))
    exact_mod_cast this
  exact div_nonneg hnum (le_of_lt hs')

lemma as_qtd_fix_add {x y : ℚ} (hx : as_qtd x = x) (hy : as_qtd y = y) :
    as_qtd (x + y) = x + y :=
  quantize_fix_add (by norm_num) hx hy

lemma as_qtd_fix_sub {x y : ℚ} (hx : as_qtd x = x) (hy : as_qtd y = y) :
    as_qtd (x - y) = x - y :=
  quantize_fix_sub (by norm_num) hx hy

lemma as_money_fix_add {x y : ℚ} (hx : as_money x = x) (hy : as_money y = y) :
    as_money (x + y) = x + y :=
  quantize_fix_add (by norm_num) hx hy

lemma as_money_fix_sub {x y : ℚ} (hx : as_money x = x) (hy : as_money y = y) :
    as_money (x - y) = x - y :=
  quantize_fix_sub (by norm_num) hx hy

lemma as_qtd_nonneg {x : ℚ} (h : 0 ≤ x) : 0 ≤ as_qtd x := quantize_nonneg (by norm_num) h

lemma as_money_nonneg {x : ℚ} (h : 0 ≤ x) : 0 ≤ as_money x := quantize_nonneg (by norm_num) h

lemma as_money_zero : as_money 0 = 0 := by
  have := quantize_int_div 100 (by norm_num) 0
  simpa [as_money] using this

/-- Core rounding fact behind the sale-aggregate analysis, stated for an
explicit decomposition `y = k + f` with `0 ≤ f < 1`: adding the half-up
quantization error of `y` to a non-negative integer `n` and rounding half-up
again recovers `n`, except exactly at an upward tie (`f = 1/2`). -/
lemma halfUp_add_err_core (n k : ℤ) (f : ℚ) (hn : 0 ≤ n) (hk : 0 ≤ (k : ℚ) + f)
    (hf0 : 0 ≤ f) (hf1 : f < 1) (hf : f ≠ 1/2) :
    halfUp ((n : ℚ) + ((halfUp ((k : ℚ) + f) : ℤ) : ℚ) - ((k : ℚ) + f)) = n := by
  have h0 : halfUp ((k : ℚ) + f) = ⌊(k : ℚ) + f + 1/2⌋ := by unfold halfUp; rw [if_pos hk]
  have harg : (k : ℚ) + f + 1/2 = (k : ℚ) + (f + 1/2) := by ring
  have hfloor : ⌊(k : ℚ) + f + 1/2⌋ = k + ⌊f + 1/2⌋ := by rw [harg, Int.floor_int_add]
  rcases lt_or_gt_of_ne hf with hlt | hgt
  · -- fractional part below one half: the quantization error is `-f`
    have hz : ⌊f + 1/2⌋ = 0 := by
      rw [Int.floor_eq_iff]
      constructor
      · push_cast; linarith
      · push_cast; linarith
    have he : (n : ℚ) + ((halfUp ((k : ℚ) + f) : ℤ) : ℚ) - ((k : ℚ) + f) = (n : ℚ) + -f := by
      rw [h0, hfloor, hz]; push_cast; ring
    rw [he]
    rcases eq_or_lt_of_le hf0 with hf0' | hf0'
    · rw [← hf0']
      simpa using halfUp_intCast n
    · rcases eq_or_lt_of_le hn with hn0 | hn1
      · rw [← hn0]
        unfold halfUp
        rw [if_neg (by push_cast; linarith)]
        have harg2 : -(((0 : ℤ) : ℚ) + -f) + 1/2 = f + 1/2 := by push_cast; ring
        rw [harg2, hz]
        norm_num
      · have hle1 : (1 : ℚ) ≤ (n : ℚ) := by exact_mod_cast hn1
        unfold halfUp
        rw [if_pos (by linarith)]
        have harg2 : (n : ℚ) + -f + 1/2 = (n : ℚ) + (1/2 - f) := by ring
        rw [harg2, Int.floor_int_add]
        have hz2 : ⌊(1/2 : ℚ) - f⌋ = 0 := by
          rw [Int.floor_eq_iff]
          constructor
          · push_cast; linarith
          · push_cast; linarith
        rw [hz2]
        norm_num
  · -- fractional part above one half: the quantization error is `1 - f`
    have hz : ⌊f + 1/2⌋ = 1 := by
      rw [Int.floor_eq_iff]
      constructor
      · push_cast; linarith
      · push_cast; linarith
    have he : (n : ℚ) + ((halfUp ((k : ℚ) + f) : ℤ) : ℚ) - ((k : ℚ) + f)
        = (n : ℚ) + (1 - f) := by
      rw [h0, hfloor, hz]; push_cast; ring
    rw [he]
    have hn' : (0 : ℚ) ≤ (n : ℚ) := by exact_mod_cast hn
    unfold halfUp
    rw [if_pos (by linarith)]
    have harg2 : (n : ℚ) + (1 - f) + 1/2 = (n : ℚ) + (3/2 - f) := by ring
    rw [harg2, Int.floor_int_add]
    have hz2 : ⌊(3/2 : ℚ) - f⌋ = 0 := by
      rw [Int.floor_eq_iff]
      constructor
      · push_cast; linarith
      · push_cast; linarith
    rw [hz2]
    norm_num

/-- Key rounding fact: for `0 ≤ y` whose fractional part is not exactly `1/2`,
adding the half-up quantization error of `y` to a non-negative integer `n` and
rounding half-up again recovers `n`. -/
lemma halfUp_add_err (n : ℤ) (hn : 0 ≤ n) (y : ℚ) (hy : 0 ≤ y)
    (hf : Int.fract y ≠ 1/2) :
    halfUp ((n : ℚ) + ((halfUp y : ℤ) : ℚ) - y) = n := by
  have hy' : y = ((⌊y⌋ : ℤ) : ℚ) + Int.fract y := (Int.floor_add_fract y).symm
  rw [hy']
  exact halfUp_add_err_core n ⌊y⌋ (Int.fract y) hn (by rw [← hy']; exact hy)
    (Int.fract_nonneg y) (Int.fract_lt_one y) hf

/-- Money round-trip: for a non-negative 2-decimal `S` and any `0 ≤ pq` whose
cent value is not an exact upward tie, `as_money (S + as_money pq - pq) = S`. -/
lemma as_money_restore {S pq : ℚ} (hS : as_money S = S) (hS0 : 0 ≤ S) (hpq : 0 ≤ pq)
    (hf : Int.fract (pq * 100) ≠ 1/2) : as_money (S + as_money pq - pq) = S := by
  obtain ⟨n, hn⟩ := exists_int_of_quantize_fix (s := 100) hS
  have hn0 : 0 ≤ n := by
    have h1 : (0 : ℚ) ≤ (n : ℚ) / ((100 : ℤ) : ℚ) := hn ▸ hS0
    have h2 : (0 : ℚ) ≤ (n : ℚ) := by
      have h3 := mul_nonneg h1 (by norm_num : (0 : ℚ) ≤ ((100 : ℤ) : ℚ))
      calc (0 : ℚ) ≤ (n : ℚ) / ((100 : ℤ) : ℚ) * ((100 : ℤ) : ℚ) := h3
        _ = (n : ℚ) := by norm_num
    exact_mod_cast h2
  rw [hn]
  unfold as_money quantize
  have harg : ((n : ℚ) / ((100 : ℤ) : ℚ) + ((halfUp (pq * ((100 : ℤ) : ℚ)) : ℤ) : ℚ)
        / ((100 : ℤ) : ℚ) - pq) * ((100 : ℤ) : ℚ)
      = (n : ℚ) + ((halfUp (pq * 100) : ℤ) : ℚ) - pq * 100 := by
    push_cast
    ring
  rw [harg, halfUp_add_err n hn0 (pq * 100) (by positivity)
    (by exact_mod_cast hf)]

/-! ## Stock movement engine (models.py: `StockMove`, `_apply_stock_move`)

`_apply_stock_move` runs as an `after_insert` hook inside the same transaction
as the `StockMove` insert: if it raises, the insert is rolled back with it.
`insert_move` below models one insert-plus-hook transaction; a failed
transaction returns the state unchanged (no move persisted, quantity intact).
The database check constraint `ck_stock_moves_qtd_positiva` (`qtd > 0`) also
rejects the insert of a non-positive move inside the same transaction. -/

/-- `stock_move_enum` from models.py. -/
inductive MoveTipo
  | entrada_compra
  | entrada_ajuste
  | saida_venda
  | saida_ajuste
  | devolucao
deriving DecidableEq, Repr

/-- The two outbound move types of `_apply_stock_move`. -/
def MoveTipo.is_saida : MoveTipo → Bool
  | .saida_venda => true
  | .saida_ajuste => true
  | _ => false

/-- One `StockMove` row (the columns the core logic reads). -/
structure SMove where
  store_id : Nat := 0
  product_id : Nat := 0
  tipo : MoveTipo
  qtd : ℚ
  custo : ℚ := 0
  ref_origem : Option String := none
  ref_id : Option Nat := none
  motivo : Option String := none
deriving DecidableEq, Repr

/-- The mutable state owned by the engine for one (store, product):
`StockItem.quantidade` and `Product.custo_atual`. -/
structure StockState where
  quantidade : ℚ
  custo_atual : ℚ
deriving DecidableEq, Repr

/-- models.py `_apply_stock_move`: subtract for `saida_venda`/`saida_ajuste`
(raising when the result would be negative), add for the inbound types, and
recompute the weighted-average cost on `entrada_compra`. -/
def apply_stock_move (si : StockState) (m : SMove) : Except String StockState :=
  let qtd := as_qtd m.qtd
  if m.tipo.is_saida then
    let novo := as_qtd si.quantidade - qtd
    if novo < 0 then .error "Operação causaria estoque negativo"
    else .ok { si with quantidade := novo }
  else
    let q1 := as_qtd si.quantidade + qtd
    if m.tipo = .entrada_compra then
      let Qt := as_qtd q1
      if 0 < Qt then
        .ok { quantidade := q1,
              custo_atual := as_money ((as_money si.custo_atual * (Qt - qtd)
                + as_money m.custo * qtd) / (if Qt = 0 then 1 else Qt)) }
      else .ok { quantidade := q1, custo_atual := as_money m.custo }
    else .ok { si with quantidade := q1 }

/-- One insert-a-StockMove transaction: the check constraint `qtd > 0` and the
`after_insert` hook both run inside it, so on any failure neither the move nor
the quantity update persists. -/
def insert_move (st : StockState × List SMove) (m : SMove) : StockState × List SMove :=
  if m.qtd ≤ 0 then st
  else
    match apply_stock_move st.1 m with
    | .error _ => st
    | .ok si => (si, st.2 ++ [m])

/-- Signed quantity of a persisted move: positive for the inbound types
(`entrada_compra`, `entrada_ajuste`, `devolucao`), negative for the outbound
ones (`saida_venda`, `saida_ajuste`). -/
def signed_qtd (m : SMove) : ℚ :=
  match m.tipo with
  | .entrada_compra => m.qtd
  | .entrada_ajuste => m.qtd
  | .devolucao => m.qtd
  | .saida_venda => -m.qtd
  | .saida_ajuste => -m.qtd

lemma apply_stock_move_ok_nonneg {si si' : StockState} {m : SMove}
    (h : 0 ≤ si.quantidade) (hm : 0 ≤ m.qtd)
    (heq : apply_stock_move si m = .ok si') : 0 ≤ si'.quantidade := by
  have hsum : 0 ≤ as_qtd si.quantidade + as_qtd m.qtd :=
    add_nonneg (as_qtd_nonneg h) (as_qtd_nonneg hm)
  simp only [apply_stock_move] at heq
  split at heq
  · split at heq
    · exact absurd heq (by simp)
    · rename_i hnovo
      cases heq
      simpa using le_of_not_lt hnovo
  · split at heq
    · split at heq
      · cases heq
        simpa using hsum
      · cases heq
        simpa using hsum
    · cases heq
      simpa using hsum

lemma insert_move_nonneg (st : StockState × List SMove) (m : SMove)
    (h : 0 ≤ st.1.quantidade) : 0 ≤ (insert_move st m).1.quantidade := by
  unfold insert_move
  split
  · exact h
  · rename_i hq
    rcases heq : apply_stock_move st.1 m with e | si
    · simp only [heq]
      exact h
    · simp only [heq]
      exact apply_stock_move_ok_nonneg h (le_of_lt (lt_of_not_le hq)) heq

lemma foldl_insert_move_nonneg (ms : List SMove) (st : StockState × List SMove)
    (h : 0 ≤ st.1.quantidade) : 0 ≤ (ms.foldl insert_move st).1.quantidade := by
  induction ms generalizing st with
  | nil => simpa using h
  | cons m rest ih => exact ih (insert_move st m) (insert_move_nonneg st m h)

lemma as_qtd_zero : as_qtd 0 = 0 := by
  have := quantize_int_div 10000 (by norm_num) 0
  simpa [as_qtd] using this

lemma signed_qtd_eq (m : SMove) :
    signed_qtd m = if m.tipo.is_saida then -m.qtd else m.qtd := by
  cases h : m.tipo <;> simp [signed_qtd, MoveTipo.is_saida, h]

lemma apply_stock_move_ok_quantidade {si si' : StockState} {m : SMove}
    (heq : apply_stock_move si m = .ok si') :
    si'.quantidade = as_qtd si.quantidade
      + (if m.tipo.is_saida then -(as_qtd m.qtd) else as_qtd m.qtd) := by
  simp only [apply_stock_move] at heq
  split at heq
  · rename_i hsaida
    split at heq
    · exact absurd heq (by simp)
    · cases heq
      simp [hsaida]
      ring
  · rename_i hsaida
    split at heq
    · split at heq
      · cases heq
        simp [hsaida]
      · cases heq
        simp [hsaida]
    · cases heq
      simp [hsaida]

lemma insert_move_sum (st : StockState × List SMove) (m : SMove)
    (hfix : as_qtd st.1.quantidade = st.1.quantidade)
    (hsum : st.1.quantidade = (st.2.map signed_qtd).sum)
    (hm : as_qtd m.qtd = m.qtd) :
    as_qtd (insert_move st m).1.quantidade = (insert_move st m).1.quantidade ∧
    (insert_move st m).1.quantidade = ((insert_move st m).2.map signed_qtd).sum := by
  unfold insert_move
  split
  · exact ⟨hfix, hsum⟩
  · rcases heq : apply_stock_move st.1 m with e | si
    · simp only [heq]
      exact ⟨hfix, hsum⟩
    · simp only [heq]
      have hq := apply_stock_move_ok_quantidade heq
      constructor
      · simp only [hq, hfix, hm]
        split
        · have h1 : st.1.quantidade + -m.qtd = st.1.quantidade - m.qtd := by ring
          rw [h1]
          exact as_qtd_fix_sub hfix hm
        · exact as_qtd_fix_add hfix hm
      · simp only [hq, hfix, hm, List.map_append, List.sum_append, List.map_cons,
          List.map_nil, List.sum_cons, List.sum_nil, signed_qtd_eq m]
        rw [← hsum]
        split <;> ring

lemma foldl_insert_move_sum (ms : List SMove) (st : StockState × List SMove)
    (hfix : as_qtd st.1.quantidade = st.1.quantidade)
    (hsum : st.1.quantidade = (st.2.map signed_qtd).sum)
    (hall : ∀ m ∈ ms, as_qtd m.qtd = m.qtd) :
    (ms.foldl insert_move st).1.quantidade
      = (((ms.foldl insert_move st).2).map signed_qtd).sum := by
  induction ms generalizing st with
  | nil => simpa using hsum
  | cons m rest ih =>
    have hstep := insert_move_sum st m hfix hsum (hall m (by simp))
    exact ih (insert_move st m) hstep.1 hstep.2 (fun x hx => hall x (by simp [hx]))

/-! ## Claims C1-C3: the stock movement engine -/

/-- Claim C1 (confirmed): an outbound StockMove (`saida_venda` or
`saida_ajuste`) whose quantity exceeds the current on-hand quantity makes the
insert transaction fail, leaving the StockItem quantity and the persisted move
list unchanged (atomic rejection); and on every state reachable from an empty
stock item by inserting moves through the engine, `StockItem.quantidade ≥ 0`. -/
theorem C1_stock_nonnegative_atomic_rejection :
    (∀ (st : StockState × List SMove) (m : SMove),
        m.tipo.is_saida = true →
        as_qtd st.1.quantidade < as_qtd m.qtd →
        insert_move st m = st)
    ∧ ∀ (c0 : ℚ) (ms : List SMove),
        0 ≤ (ms.foldl insert_move ({ quantidade := 0, custo_atual := c0 }, [])).1.quantidade := by
  constructor
  · intro st m hsaida hlt
    have herr : apply_stock_move st.1 m = .error "Operação causaria estoque negativo" := by
      simp only [apply_stock_move, hsaida, if_true]
      rw [if_pos (sub_neg.mpr hlt)]
    unfold insert_move
    split
    · rfl
    · simp only [herr]
  · intro c0 ms
    exact foldl_insert_move_nonneg ms _ (by norm_num)

/-- Witness for C1 at a concrete input: on-hand 5, outbound sale of 7 is
rejected atomically, and the non-negativity invariant holds on a small replay. -/
theorem C1_witness :
    insert_move ({ quantidade := 5, custo_atual := 0 }, [])
        { tipo := .saida_venda, qtd := 7 }
      = ({ quantidade := 5, custo_atual := 0 }, [])
    ∧ 0 ≤ (([{ tipo := .entrada_ajuste, qtd := 3 },
        { tipo := .saida_venda, qtd := 7 }] : List SMove).foldl insert_move
          ({ quantidade := 0, custo_atual := 0 }, [])).1.quantidade := by
  constructor
  · exact C1_stock_nonnegative_atomic_rejection.1 _ _ rfl
      (by norm_num [as_qtd, quantize, halfUp])
  · exact C1_stock_nonnegative_atomic_rejection.2 0 _

/-- Claim C2 (confirmed): replaying any sequence of inserted StockMoves through
the engine from an empty stock item, the signed sum of the persisted moves'
quantities (positive for `entrada_compra`, `entrada_ajuste`, `devolucao`;
negative for `saida_venda`, `saida_ajuste`) equals the resulting
`StockItem.quantidade`.  The hypothesis mirrors the services layer, which
quantizes every quantity with `_as_qtd` before constructing a StockMove. -/
theorem C2_signed_sum_materialized_view :
    ∀ (c0 : ℚ) (ms : List SMove),
      (∀ m ∈ ms, as_qtd m.qtd = m.qtd) →
      (ms.foldl insert_move ({ quantidade := 0, custo_atual := c0 }, [])).1.quantidade
        = (((ms.foldl insert_move ({ quantidade := 0, custo_atual := c0 }, [])).2).map
            signed_qtd).sum := by
  intro c0 ms hall
  exact foldl_insert_move_sum ms _ (by simpa using as_qtd_zero) (by simp) hall

/-- Witness for C2 at a concrete input: inserting +3 (`entrada_ajuste`),
-1 (`saida_venda`) from empty leaves quantity 2, the signed sum. -/
theorem C2_witness :
    (([{ tipo := .entrada_ajuste, qtd := 3 },
        { tipo := .saida_venda, qtd := 1 }] : List SMove).foldl insert_move
          ({ quantidade := 0, custo_atual := 0 }, [])).1.quantidade
      = ((([{ tipo := .entrada_ajuste, qtd := 3 },
        { tipo := .saida_venda, qtd := 1 }] : List SMove).foldl insert_move
          ({ quantidade := 0, custo_atual := 0 }, [])).2.map signed_qtd).sum :=
  C2_signed_sum_materialized_view 0 _ (by
    intro m hm
    simp only [List.mem_cons, List.not_mem_nil, or_false] at hm
    rcases hm with rfl | rfl <;> norm_num [as_qtd, quantize, halfUp])

/-- Claim C3 (confirmed): an `entrada_compra` move sets
`new_qty = old_qty + move.qty` and recomputes the weighted-average cost as
`as_money ((old_cost × (new_qty − move.qty) + move.cost × move.qty) / new_qty)`
whenever `new_qty > 0`, and sets the cost to the move's cost otherwise; in
particular from qty 10 at cost 5.00, an `entrada_compra` of qty 10 at cost
7.00 yields qty 20 at cost exactly 6.00. -/
theorem C3_weighted_average_cost :
    (∀ (si : StockState) (m : SMove),
        m.tipo = .entrada_compra → 0 < m.qtd → as_qtd m.qtd = m.qtd →
        as_qtd si.quantidade = si.quantidade → 0 ≤ si.quantidade →
        apply_stock_move si m = .ok
          { quantidade := si.quantidade + m.qtd,
            custo_atual := as_money ((as_money si.custo_atual * si.quantidade
              + as_money m.custo * m.qtd) / (si.quantidade + m.qtd)) })
    ∧ (∀ (si : StockState) (m : SMove) (si' : StockState),
        m.tipo = .entrada_compra → apply_stock_move si m = .ok si' →
        ¬ 0 < as_qtd si'.quantidade → si'.custo_atual = as_money m.custo)
    ∧ apply_stock_move { quantidade := 10, custo_atual := 5 }
        { tipo := .entrada_compra, qtd := 10, custo := 7 }
      = .ok { quantidade := 20, custo_atual := 6 } := by
  refine ⟨?_, ?_, ?_⟩
  · intro si m htipo hpos hmfix hsifix hsi0
    have hQtpos : 0 < si.quantidade + m.qtd := by linarith
    unfold apply_stock_move
    rw [htipo]
    simp only [MoveTipo.is_saida, Bool.false_eq_true, if_false, reduceIte]
    rw [hmfix, hsifix]
    have hQt2 : as_qtd (si.quantidade + m.qtd) = si.quantidade + m.qtd :=
      as_qtd_fix_add hsifix hmfix
    rw [hQt2]
    rw [if_pos hQtpos, if_neg (ne_of_gt hQtpos)]
    have hsub : si.quantidade + m.qtd - m.qtd = si.quantidade := by ring
    rw [hsub]
  · intro si m si' htipo heq hnotpos
    unfold apply_stock_move at heq
    rw [htipo] at heq
    simp only [MoveTipo.is_saida, Bool.false_eq_true, if_false, reduceIte] at heq
    split at heq
    · rename_i hQtpos
      cases heq
      exact absurd hQtpos (by simpa using hnotpos)
    · cases heq
      rfl
  · norm_num [apply_stock_move, MoveTipo.is_saida, as_qtd, as_money, quantize, halfUp]

/-- Witness for C3 at the claim's concrete input: qty 10 at cost 5.00 plus an
`entrada_compra` of qty 10 at cost 7.00. -/
theorem C3_witness :
    apply_stock_move { quantidade := 10, custo_atual := 5 }
        { tipo := .entrada_compra, qtd := 10, custo := 7 }
      = .ok { quantidade := (10 : ℚ) + 10,
              custo_atual := as_money ((as_money 5 * 10 + as_money 7 * 10)
                / ((10 : ℚ) + 10)) } :=
  C3_weighted_average_cost.1 { quantidade := 10, custo_atual := 5 }
    { tipo := .entrada_compra, qtd := 10, custo := 7 } rfl (by norm_num)
    (by norm_num [as_qtd, quantize, halfUp])
    (by norm_num [as_qtd, quantize, halfUp])
    (by norm_num)

/-! ## Point-of-sale workflow (services.py: `_preco_com_promos`,
`adicionar_item_venda`, `remover_item_venda`, `cancelar_venda`)

The Python functions receive ids and load rows from the session; the embedding
receives the lookup results directly (`Option` for a row that may be absent),
plus the promo table, the clock `agora` (`datetime.utcnow()`) and the fresh id
the database would assign.  A raised `ServiceError` is an `.error` result and,
through `services.transaction()`, rolls the whole transaction back. -/

/-- models.py `Promo.regra_json` as a tagged union: only the
`desconto_percentual` payload is interpreted by `_preco_com_promos`; `outra`
stands for every other payload (other rule kinds, non-dict JSON). -/
inductive RegraPromo
  | desconto_percentual (value : ℚ)
  | outra
deriving DecidableEq, Repr

/-- models.py `Promo` (the columns the core logic reads). -/
structure Promo where
  id : Nat
  store_id : Nat
  regra : RegraPromo
  validade_ini : Int
  validade_fim : Option Int
  prioridade : Int
  ativa : Bool
  deleted : Bool
deriving DecidableEq, Repr

/-- models.py `Product` (the columns the sale logic reads). -/
structure Product where
  id : Nat
  store_id : Nat
  preco_venda : ℚ
  custo_atual : ℚ
  ativo : Bool
  deleted : Bool
deriving DecidableEq, Repr

/-- `sale_status_enum` from models.py. -/
inductive SaleStatus
  | aberta
  | concluida
  | cancelada
deriving DecidableEq, Repr

/-- models.py `SaleItem` (the columns the sale logic reads and writes). -/
structure SaleItem where
  id : Nat
  sale_id : Nat
  product_id : Nat
  qtd : ℚ
  preco_unit : ℚ
  desconto : ℚ
  promo_id : Option Nat
  total : ℚ
deriving DecidableEq, Repr

/-- models.py `Sale` (the columns the sale logic reads and writes). -/
structure Sale where
  id : Nat
  store_id : Nat
  status : SaleStatus
  subtotal : ℚ
  desconto : ℚ
  total : ℚ
  items : List SaleItem
deriving DecidableEq, Repr

/-- The WHERE clause of the promo query in `_preco_com_promos`: same store,
`ativa` true, `validade_ini ≤ agora`, `validade_fim` null or `≥ agora`.
Note there is no `deleted` filter. -/
def promo_filter (store_id : Nat) (agora : Int) (pr : Promo) : Bool :=
  pr.store_id == store_id && pr.ativa && decide (pr.validade_ini ≤ agora) &&
    (match pr.validade_fim with
     | none => true
     | some f => decide (agora ≤ f))

/-- `order_by(Promo.prioridade.asc()).first()`: the first row in table order
among those of minimal `prioridade` (a consistent tie-break). -/
def first_min_prioridade (l : List Promo) : Option Promo :=
  l.foldl (fun acc pr =>
    match acc with
    | none => some pr
    | some best => if pr.prioridade < best.prioridade then some pr else some best) none

/-- services.py `_preco_com_promos`: returns
(final unit price, applied promo id, total discount). -/
def preco_com_promos (store_id : Nat) (p : Product) (qtd : ℚ)
    (promos : List Promo) (agora : Int) : ℚ × Option Nat × ℚ :=
  let preco_unit := as_money p.preco_venda
  if p.ativo = false then (preco_unit, none, as_money 0)
  else
    match first_min_prioridade (promos.filter (promo_filter store_id agora)) with
    | none => (preco_unit, none, as_money 0)
    | some promo =>
      match promo.regra with
      | .desconto_percentual perc =>
        (preco_unit, some promo.id, as_money ((preco_unit * qtd) * (perc / 100)))
      | .outra => (preco_unit, none, as_money 0)

/-- services.py `adicionar_item_venda`. -/
def adicionar_item_venda (sale? : Option Sale) (p? : Option Product) (qtd0 : ℚ)
    (promos : List Promo) (agora : Int) (next_id : Nat) :
    Except String (Sale × SaleItem) :=
  match sale? with
  | none => .error "Venda inválida ou não está aberta"
  | some sale =>
    if sale.status = .aberta then
      match p? with
      | none => .error "Produto inválido"
      | some p =>
        if p.store_id = sale.store_id ∧ p.deleted = false then
          if 0 < as_qtd qtd0 then
            let qtd := as_qtd qtd0
            let r := preco_com_promos sale.store_id p qtd promos agora
            let preco_unit := r.1
            let promo_id := r.2.1
            let desconto_total := r.2.2
            let total_sem_desc := as_money (preco_unit * qtd)
            let total := as_money (total_sem_desc - desconto_total)
            let si : SaleItem :=
              { id := next_id, sale_id := sale.id, product_id := p.id, qtd := qtd,
                preco_unit := preco_unit, desconto := desconto_total,
                promo_id := promo_id, total := total }
            .ok ({ sale with
                    subtotal := as_money (sale.subtotal + total_sem_desc),
                    desconto := as_money (sale.desconto + desconto_total),
                    total := as_money (sale.total + total),
                    items := sale.items ++ [si] }, si)
          else .error "Quantidade deve ser positiva"
        else .error "Produto inválido"
    else .error "Venda inválida ou não está aberta"

/-- services.py `remover_item_venda`. -/
def remover_item_venda (si? : Option SaleItem) (sale? : Option Sale) :
    Except String Sale :=
  match si? with
  | none => .error "Item não encontrado"
  | some si =>
    match sale? with
    | none => .error "Venda não está aberta"
    | some sale =>
      if sale.status = .aberta then
        .ok { sale with
                subtotal := as_money (sale.subtotal - si.preco_unit * si.qtd),
                desconto := as_money (sale.desconto - si.desconto),
                total := as_money (sale.total - si.total),
                items := sale.items.filter (fun x => x.id ≠ si.id) }
      else .error "Venda não está aberta"

/-- The `devolucao` StockMove emitted by `cancelar_venda` for one sale line. -/
def devolucao_move (sale : Sale) (motivo : String) (it : SaleItem) : SMove :=
  { store_id := sale.store_id, product_id := it.product_id, tipo := .devolucao,
    qtd := as_qtd it.qtd, custo := 0, ref_origem := some "sale",
    ref_id := some sale.id,
    motivo := some ((if motivo = "" then "Cancelamento de venda" else motivo).take 200) }

/-- services.py `cancelar_venda`: returns the cancelled sale and the emitted
`devolucao` StockMoves.  Mirrors the source exactly: the status is set to
`cancelada` first, and the emission guard then reads the already-updated
status (`sale.status == "cancelada"` is always true) together with
`len(sale.items) > 0` and `sale.total > 0`. -/
def cancelar_venda (sale? : Option Sale) (motivo : String) :
    Except String (Sale × List SMove) :=
  match sale? with
  | none => .error "Venda não pode ser cancelada"
  | some sale =>
    if sale.status = .aberta ∨ sale.status = .concluida then
      let sale1 : Sale := { sale with status := .cancelada }
      let moves :=
        if 0 < sale1.items.length then
          if 0 < sale1.total ∧ sale1.status = .cancelada then
            sale1.items.map (devolucao_move sale1 motivo)
          else []
        else []
      .ok (sale1, moves)
    else .error "Venda não pode ser cancelada"

lemma quantize_idem {s : ℤ} (hs : (s : ℚ) ≠ 0) (x : ℚ) :
    quantize s (quantize s x) = quantize s x :=
  quantize_int_div s hs _

lemma as_money_idem (x : ℚ) : as_money (as_money x) = as_money x :=
  quantize_idem (by norm_num) x

lemma preco_com_promos_fst (store_id : Nat) (p : Product) (qtd : ℚ)
    (promos : List Promo) (agora : Int) :
    (preco_com_promos store_id p qtd promos agora).1 = as_money p.preco_venda := by
  simp only [preco_com_promos]
  split
  · rfl
  · split
    · rfl
    · split <;> rfl

lemma preco_com_promos_desc_fix (store_id : Nat) (p : Product) (qtd : ℚ)
    (promos : List Promo) (agora : Int) :
    as_money (preco_com_promos store_id p qtd promos agora).2.2
      = (preco_com_promos store_id p qtd promos agora).2.2 := by
  simp only [preco_com_promos]
  split
  · exact as_money_idem 0
  · split
    · exact as_money_idem 0
    · split
      · exact as_money_idem _
      · exact as_money_idem 0

lemma adicionar_item_venda_ok_inv {sale : Sale} {p : Product} {qtd0 : ℚ}
    {promos : List Promo} {agora : Int} {next_id : Nat} {sale1 : Sale} {si : SaleItem}
    (h : adicionar_item_venda (some sale) (some p) qtd0 promos agora next_id
      = .ok (sale1, si)) :
    sale.status = .aberta ∧ p.store_id = sale.store_id ∧ p.deleted = false
    ∧ 0 < as_qtd qtd0
    ∧ si = { id := next_id, sale_id := sale.id, product_id := p.id,
             qtd := as_qtd qtd0,
             preco_unit := (preco_com_promos sale.store_id p (as_qtd qtd0) promos agora).1,
             desconto := (preco_com_promos sale.store_id p (as_qtd qtd0) promos agora).2.2,
             promo_id := (preco_com_promos sale.store_id p (as_qtd qtd0) promos agora).2.1,
             total := as_money (as_money
               ((preco_com_promos sale.store_id p (as_qtd qtd0) promos agora).1 * as_qtd qtd0)
               - (preco_com_promos sale.store_id p (as_qtd qtd0) promos agora).2.2) }
    ∧ sale1 = { sale with
        subtotal := as_money (sale.subtotal + as_money
          ((preco_com_promos sale.store_id p (as_qtd qtd0) promos agora).1 * as_qtd qtd0)),
        desconto := as_money (sale.desconto
          + (preco_com_promos sale.store_id p (as_qtd qtd0) promos agora).2.2),
        total := as_money (sale.total + as_money (as_money
          ((preco_com_promos sale.store_id p (as_qtd qtd0) promos agora).1 * as_qtd qtd0)
          - (preco_com_promos sale.store_id p (as_qtd qtd0) promos agora).2.2)),
        items := sale.items ++ [si] } := by
  simp only [adicionar_item_venda] at h
  split at h
  · split at h
    · split at h
      · simp only [Except.ok.injEq, Prod.mk.injEq] at h
        rename_i hst hp hq
        obtain ⟨h1, h2⟩ := h
        subst h1 h2
        exact ⟨hst, hp.1, hp.2, hq, rfl, rfl⟩
      · exact absurd h (by simp)
    · exact absurd h (by simp)
  · exact absurd h (by simp)

lemma remover_item_venda_ok_inv {si : SaleItem} {sale : Sale} {sale2 : Sale}
    (h : remover_item_venda (some si) (some sale) = .ok sale2) :
    sale.status = .aberta
    ∧ sale2 = { sale with
        subtotal := as_money (sale.subtotal - si.preco_unit * si.qtd),
        desconto := as_money (sale.desconto - si.desconto),
        total := as_money (sale.total - si.total),
        items := sale.items.filter (fun x => x.id ≠ si.id) } := by
  simp only [remover_item_venda] at h
  split at h
  · rename_i hst
    simp only [Except.ok.injEq] at h
    exact ⟨hst, h.symm⟩
  · exact absurd h (by simp)

/-! ## Claim C4: sale aggregate symmetry of add-then-remove -/

/-- Counterexample to C4 as stated: on an open sale with zero aggregates, add
an item of quantity 0.1 at unit price 1.25 (both expressible in the 4- and
2-decimal fixed point formats) with no promos, then remove it.  The line total quantizes
1.25 × 0.1 = 0.125 up to 0.13, and the removal subtracts the raw product
0.125 and re-quantizes, leaving `subtotal = 0.01 ≠ 0`: the pre-add subtotal is
not restored. -/
theorem C4_counterexample :
    adicionar_item_venda (some ⟨1, 1, .aberta, 0, 0, 0, []⟩)
        (some ⟨1, 1, 5/4, 0, true, false⟩) (1/10) [] 0 1
      = .ok (⟨1, 1, .aberta, 13/100, 0, 13/100,
              [⟨1, 1, 1, 1/10, 5/4, 0, none, 13/100⟩]⟩,
             ⟨1, 1, 1, 1/10, 5/4, 0, none, 13/100⟩)
    ∧ remover_item_venda (some ⟨1, 1, 1, 1/10, 5/4, 0, none, 13/100⟩)
        (some ⟨1, 1, .aberta, 13/100, 0, 13/100,
              [⟨1, 1, 1, 1/10, 5/4, 0, none, 13/100⟩]⟩)
      = .ok ⟨1, 1, .aberta, 1/100, 0, 0, []⟩
    ∧ (1 : ℚ)/100 ≠ 0 := by
  refine ⟨?_, ?_, by norm_num⟩ <;>
    norm_num [adicionar_item_venda, remover_item_venda, preco_com_promos,
      first_min_prioridade, List.filter, promo_filter, as_qtd, as_money, quantize, halfUp]

/-- Claim C4 (amended): removing a just-added item always restores the sale's
`desconto` and `total` exactly; it restores `subtotal` exactly unless the cent
value of `preco_unit × qtd` is an exact upward rounding tie
(`Int.fract (preco_unit × qtd × 100) = 1/2`), in which case the subtotal
drifts (the source subtracts the raw, un-quantized product on removal). -/
theorem C4_add_remove_restores_amended :
    ∀ (sale : Sale) (p : Product) (qtd0 : ℚ) (promos : List Promo) (agora : Int)
      (next_id : Nat) (sale1 : Sale) (si : SaleItem) (sale2 : Sale),
      as_money sale.subtotal = sale.subtotal →
      as_money sale.desconto = sale.desconto →
      as_money sale.total = sale.total →
      0 ≤ sale.subtotal → 0 ≤ p.preco_venda →
      adicionar_item_venda (some sale) (some p) qtd0 promos agora next_id
        = .ok (sale1, si) →
      remover_item_venda (some si) (some sale1) = .ok sale2 →
      sale2.desconto = sale.desconto ∧ sale2.total = sale.total ∧
      (Int.fract ((as_money p.preco_venda * as_qtd qtd0) * 100) ≠ 1/2 →
        sale2.subtotal = sale.subtotal) := by
  intro sale p qtd0 promos agora next_id sale1 si sale2 hsubfix hdescfix htotfix
    hsub0 hpv0 hadd hrem
  obtain ⟨hst, hps, hpd, hq, hsi, hsale1⟩ := adicionar_item_venda_ok_inv hadd
  obtain ⟨hst1, hsale2⟩ := remover_item_venda_ok_inv hrem
  subst hsi hsale1 hsale2
  set r := preco_com_promos sale.store_id p (as_qtd qtd0) promos agora with hr
  have hfst : r.1 = as_money p.preco_venda := preco_com_promos_fst _ _ _ _ _
  have hdfix : as_money r.2.2 = r.2.2 := preco_com_promos_desc_fix _ _ _ _ _
  have htsfix : as_money (as_money (r.1 * as_qtd qtd0)) = as_money (r.1 * as_qtd qtd0) :=
    as_money_idem _
  have htfix : as_money (as_money (as_money (r.1 * as_qtd qtd0) - r.2.2))
      = as_money (as_money (r.1 * as_qtd qtd0) - r.2.2) := as_money_idem _
  refine ⟨?_, ?_, ?_⟩
  · show as_money (as_money (sale.desconto + r.2.2) - r.2.2) = sale.desconto
    rw [as_money_fix_add hdescfix hdfix, add_sub_cancel_right]
    exact hdescfix
  · show as_money (as_money (sale.total
        + as_money (as_money (r.1 * as_qtd qtd0) - r.2.2))
        - as_money (as_money (r.1 * as_qtd qtd0) - r.2.2)) = sale.total
    rw [as_money_fix_add htotfix htfix, add_sub_cancel_right]
    exact htotfix
  · intro hfract
    show as_money (as_money (sale.subtotal + as_money (r.1 * as_qtd qtd0))
        - r.1 * as_qtd qtd0) = sale.subtotal
    rw [as_money_fix_add hsubfix htsfix]
    have hpq0 : 0 ≤ r.1 * as_qtd qtd0 := by
      rw [hfst]
      exact mul_nonneg (as_money_nonneg hpv0) (le_of_lt hq)
    exact as_money_restore hsubfix hsub0 hpq0 (by rw [hfst]; exact hfract)

/-- Witness for C4 (amended) at a concrete input: price 10.00, quantity 2,
no promos — no rounding tie, so all three aggregates return to zero. -/
theorem C4_witness :
    adicionar_item_venda (some ⟨1, 1, .aberta, 0, 0, 0, []⟩)
        (some ⟨1, 1, 10, 0, true, false⟩) 2 [] 0 1
      = .ok (⟨1, 1, .aberta, 20, 0, 20, [⟨1, 1, 1, 2, 10, 0, none, 20⟩]⟩,
             ⟨1, 1, 1, 2, 10, 0, none, 20⟩)
    ∧ remover_item_venda (some ⟨1, 1, 1, 2, 10, 0, none, 20⟩)
        (some ⟨1, 1, .aberta, 20, 0, 20, [⟨1, 1, 1, 2, 10, 0, none, 20⟩]⟩)
      = .ok ⟨1, 1, .aberta, 0, 0, 0, []⟩
    ∧ ((⟨1, 1, .aberta, 0, 0, 0, []⟩ : Sale).desconto
          = (⟨1, 1, .aberta, 0, 0, 0, []⟩ : Sale).desconto
       ∧ (⟨1, 1, .aberta, 0, 0, 0, []⟩ : Sale).total
          = (⟨1, 1, .aberta, 0, 0, 0, []⟩ : Sale).total
       ∧ (Int.fract ((as_money ((⟨1, 1, 10, 0, true, false⟩ : Product).preco_venda)
            * as_qtd 2) * 100) ≠ 1/2 →
          (⟨1, 1, .aberta, 0, 0, 0, []⟩ : Sale).subtotal
            = (⟨1, 1, .aberta, 0, 0, 0, []⟩ : Sale).subtotal)) := by
  have hadd : adicionar_item_venda (some ⟨1, 1, .aberta, 0, 0, 0, []⟩)
      (some ⟨1, 1, 10, 0, true, false⟩) 2 [] 0 1
      = .ok (⟨1, 1, .aberta, 20, 0, 20, [⟨1, 1, 1, 2, 10, 0, none, 20⟩]⟩,
             ⟨1, 1, 1, 2, 10, 0, none, 20⟩) := by
    norm_num [adicionar_item_venda, preco_com_promos, first_min_prioridade,
      List.filter, promo_filter, as_qtd, as_money, quantize, halfUp]
  have hrem : remover_item_venda (some ⟨1, 1, 1, 2, 10, 0, none, 20⟩)
      (some ⟨1, 1, .aberta, 20, 0, 20, [⟨1, 1, 1, 2, 10, 0, none, 20⟩]⟩)
      = .ok ⟨1, 1, .aberta, 0, 0, 0, []⟩ := by
    norm_num [remover_item_venda, as_money, quantize, halfUp, List.filter]
  exact ⟨hadd, hrem,
    C4_add_remove_restores_amended ⟨1, 1, .aberta, 0, 0, 0, []⟩
      ⟨1, 1, 10, 0, true, false⟩ 2 [] 0 1
      ⟨1, 1, .aberta, 20, 0, 20, [⟨1, 1, 1, 2, 10, 0, none, 20⟩]⟩
      ⟨1, 1, 1, 2, 10, 0, none, 20⟩ ⟨1, 1, .aberta, 0, 0, 0, []⟩
      (by norm_num [as_money, quantize, halfUp])
      (by norm_num [as_money, quantize, halfUp])
      (by norm_num [as_money, quantize, halfUp])
      (by norm_num) (by norm_num) hadd hrem⟩

/-! ## Claim C6: cancelar_venda -/

/-- Counterexample to C6 as stated: an open sale with one line item whose unit
price is 0 has `total = 0`, and `cancelar_venda` then emits no `devolucao`
moves at all (the source also requires `sale.total > 0`), even though the sale
has a line item. -/
theorem C6_counterexample :
    cancelar_venda (some ⟨1, 1, .aberta, 0, 0, 0, [⟨1, 1, 1, 1, 0, 0, none, 0⟩]⟩) "motivo"
      = .ok (⟨1, 1, .cancelada, 0, 0, 0, [⟨1, 1, 1, 1, 0, 0, none, 0⟩]⟩, [])
    ∧ (⟨1, 1, .aberta, 0, 0, 0, [⟨1, 1, 1, 1, 0, 0, none, 0⟩]⟩ : Sale).items.length = 1 := by
  constructor
  · norm_num [cancelar_venda]
  · rfl

/-- Claim C6 (amended): `cancelar_venda` succeeds exactly from status `aberta`
or `concluida` and sets the status to `cancelada`; it emits one `devolucao`
StockMove per line (with that line's quantity) exactly when the sale has at
least one line item AND `sale.total > 0` — still regardless of whether the
sale had reached `concluida` and actually emitted `saida_venda` moves. -/
theorem C6_cancel_amended :
    ∀ (sale : Sale) (motivo : String),
      ((cancelar_venda (some sale) motivo).isOk = true
        ↔ (sale.status = .aberta ∨ sale.status = .concluida))
      ∧ ∀ sale1 ms, cancelar_venda (some sale) motivo = .ok (sale1, ms) →
          sale1.status = .cancelada
          ∧ ms = (if 0 < sale.items.length ∧ 0 < sale.total
                  then sale.items.map
                    (devolucao_move { sale with status := .cancelada } motivo)
                  else []) := by
  intro sale motivo
  constructor
  · simp only [cancelar_venda]
    split
    · rename_i h
      exact iff_of_true rfl h
    · rename_i h
      exact iff_of_false (by simp [Except.isOk, Except.toBool]) h
  · intro sale1 ms heq
    simp only [cancelar_venda] at heq
    split at heq
    · simp only [Except.ok.injEq, Prod.mk.injEq] at heq
      obtain ⟨h1, h2⟩ := heq
      subst h1
      subst h2
      refine ⟨rfl, ?_⟩
      by_cases hlen : 0 < sale.items.length
      · by_cases htot : 0 < sale.total
        · simp [hlen, htot]
        · simp [hlen, htot]
      · simp [hlen]
    · exact absurd heq (by simp)

/-- Witness for C6 (amended) at a concrete input: cancelling a concluded sale
with one line of quantity 2 and total 20 emits exactly one `devolucao` move. -/
theorem C6_witness :
    cancelar_venda (some ⟨1, 1, .concluida, 20, 0, 20, [⟨1, 1, 1, 2, 10, 0, none, 20⟩]⟩)
        "teste"
      = .ok (⟨1, 1, .cancelada, 20, 0, 20, [⟨1, 1, 1, 2, 10, 0, none, 20⟩]⟩,
             [devolucao_move ⟨1, 1, .cancelada, 20, 0, 20, [⟨1, 1, 1, 2, 10, 0, none, 20⟩]⟩
               "teste" ⟨1, 1, 1, 2, 10, 0, none, 20⟩])
    ∧ (⟨1, 1, .cancelada, 20, 0, 20, [⟨1, 1, 1, 2, 10, 0, none, 20⟩]⟩ : Sale).status
        = .cancelada := by
  have hc : cancelar_venda
      (some ⟨1, 1, .concluida, 20, 0, 20, [⟨1, 1, 1, 2, 10, 0, none, 20⟩]⟩) "teste"
      = .ok (⟨1, 1, .cancelada, 20, 0, 20, [⟨1, 1, 1, 2, 10, 0, none, 20⟩]⟩,
             [devolucao_move ⟨1, 1, .cancelada, 20, 0, 20, [⟨1, 1, 1, 2, 10, 0, none, 20⟩]⟩
               "teste" ⟨1, 1, 1, 2, 10, 0, none, 20⟩]) := by
    norm_num [cancelar_venda]
  exact ⟨hc, ((C6_cancel_amended
    ⟨1, 1, .concluida, 20, 0, 20, [⟨1, 1, 1, 2, 10, 0, none, 20⟩]⟩ "teste").2
    _ _ hc).1⟩

/-! ## Claim C7: adicionar_item_venda validation -/

/-- Counterexample to C7 as stated: `adicionar_item_venda` never checks
`Product.ativo`.  Adding an inactive (`ativo = false`), non-deleted,
same-store product to an open sale succeeds, creates the SaleItem and updates
the aggregates (the inactive flag only disables promo resolution). -/
theorem C7_counterexample :
    adicionar_item_venda (some ⟨1, 1, .aberta, 0, 0, 0, []⟩)
        (some ⟨2, 1, 10, 0, false, false⟩) 1 [] 0 1
      = .ok (⟨1, 1, .aberta, 10, 0, 10, [⟨1, 1, 2, 1, 10, 0, none, 10⟩]⟩,
             ⟨1, 1, 2, 1, 10, 0, none, 10⟩)
    ∧ (⟨2, 1, 10, 0, false, false⟩ : Product).ativo = false := by
  constructor
  · norm_num [adicionar_item_venda, preco_com_promos, as_qtd, as_money, quantize, halfUp]
  · rfl

/-- Claim C7 (amended): `adicionar_item_venda` raises a domain error exactly
when the sale is missing or not `aberta`, the product is missing, belongs to
another store, or is soft-deleted, or the quantized quantity is not positive;
the product's `ativo` flag is NOT checked (an inactive product is accepted,
only skipping promo resolution).  On every error no SaleItem is created and
the aggregates are unchanged (the transaction rolls back). -/
theorem C7_add_item_validation_amended :
    (∀ (p? : Option Product) (qtd0 : ℚ) (promos : List Promo) (agora : Int) (nid : Nat),
        (adicionar_item_venda none p? qtd0 promos agora nid).isOk = false)
    ∧ (∀ (sale : Sale) (qtd0 : ℚ) (promos : List Promo) (agora : Int) (nid : Nat),
        (adicionar_item_venda (some sale) none qtd0 promos agora nid).isOk = false)
    ∧ (∀ (sale : Sale) (p : Product) (qtd0 : ℚ) (promos : List Promo) (agora : Int)
        (nid : Nat),
        (adicionar_item_venda (some sale) (some p) qtd0 promos agora nid).isOk = true
          ↔ (sale.status = .aberta ∧ p.store_id = sale.store_id ∧ p.deleted = false
             ∧ 0 < as_qtd qtd0)) := by
  refine ⟨?_, ?_, ?_⟩
  · intro p? qtd0 promos agora nid
    rfl
  · intro sale qtd0 promos agora nid
    simp only [adicionar_item_venda]
    split <;> rfl
  · intro sale p qtd0 promos agora nid
    simp only [adicionar_item_venda]
    split
    · rename_i hst
      split
      · rename_i hp
        split
        · rename_i hq
          exact iff_of_true rfl ⟨hst, hp.1, hp.2, hq⟩
        · rename_i hq
          exact iff_of_false (by simp [Except.isOk, Except.toBool])
            (fun h => hq h.2.2.2)
      · rename_i hp
        exact iff_of_false (by simp [Except.isOk, Except.toBool])
          (fun h => hp ⟨h.2.1, h.2.2.1⟩)
    · rename_i hst
      exact iff_of_false (by simp [Except.isOk, Except.toBool])
        (fun h => hst h.1)

/-- Witness for C7 (amended) at concrete inputs: a closed sale is rejected,
and an inactive same-store product on an open sale is accepted. -/
theorem C7_witness :
    ((adicionar_item_venda (some ⟨1, 1, .concluida, 0, 0, 0, []⟩)
        (some ⟨1, 1, 10, 0, true, false⟩) 1 [] 0 1).isOk = true
      ↔ ((⟨1, 1, .concluida, 0, 0, 0, []⟩ : Sale).status = .aberta
         ∧ (⟨1, 1, 10, 0, true, false⟩ : Product).store_id
            = (⟨1, 1, .concluida, 0, 0, 0, []⟩ : Sale).store_id
         ∧ (⟨1, 1, 10, 0, true, false⟩ : Product).deleted = false
         ∧ 0 < as_qtd 1))
    ∧ (adicionar_item_venda none none 1 [] 0 1).isOk = false := by
  exact ⟨C7_add_item_validation_amended.2.2 _ _ _ _ _ _,
    C7_add_item_validation_amended.1 _ _ _ _ _⟩

/-! ## Claim C10: promo resolution ignores the soft-delete flag -/

/-- Claim C10 (confirmed): the promo query in `_preco_com_promos` filters only
on store, `ativa` and the validity window — never on `deleted` — so when the
selected lowest-`prioridade` candidate is soft-deleted and carries a
`desconto_percentual` rule, `adicionar_item_venda` still applies its
percentage discount to the line and records the promo id. -/
theorem C10_promo_ignores_soft_delete :
    (∀ (store_id : Nat) (agora : Int) (pr : Promo) (b : Bool),
        promo_filter store_id agora { pr with deleted := b }
          = promo_filter store_id agora pr)
    ∧ (∀ (sale : Sale) (p : Product) (qtd0 : ℚ) (promos : List Promo) (agora : Int)
        (nid : Nat) (promo : Promo) (perc : ℚ),
        sale.status = .aberta → p.store_id = sale.store_id → p.deleted = false →
        p.ativo = true → 0 < as_qtd qtd0 →
        first_min_prioridade (promos.filter (promo_filter sale.store_id agora))
          = some promo →
        promo.deleted = true →
        promo.regra = .desconto_percentual perc →
        ∃ sale1 si,
          adicionar_item_venda (some sale) (some p) qtd0 promos agora nid
            = .ok (sale1, si)
          ∧ si.promo_id = some promo.id
          ∧ si.desconto
              = as_money ((as_money p.preco_venda * as_qtd qtd0) * (perc / 100))) := by
  constructor
  · intro store_id agora pr b
    rfl
  · intro sale p qtd0 promos agora nid promo perc hst hps hpd hativo hq hsel hdel hregra
    have hpc : preco_com_promos sale.store_id p (as_qtd qtd0) promos agora
        = (as_money p.preco_venda, some promo.id,
           as_money ((as_money p.preco_venda * as_qtd qtd0) * (perc / 100))) := by
      simp [preco_com_promos, hativo, hsel, hregra]
    rcases hres : adicionar_item_venda (some sale) (some p) qtd0 promos agora nid
      with e | ⟨sale1, si⟩
    · exfalso
      simp only [adicionar_item_venda, hst, hps, hpd, and_self, if_true] at hres
      rw [if_pos hq] at hres
      exact absurd hres (by simp)
    · obtain ⟨_, _, _, _, hsi, hsale1⟩ := adicionar_item_venda_ok_inv hres
      subst hsi
      refine ⟨sale1, _, rfl, ?_, ?_⟩ <;> simp [hpc]

/-! ## Claim C9: EAN normalization and validation -/

/-- Counterexample to C9 as stated: stripping the non-digits of
"789-12345-6785" yields the 12 digits "789123456785" (not the 11-character
"78912345678" the claim asserts), and length 12 IS in {8, 12, 13, 14}, so the
EAN validator accepts this input instead of failing. -/
theorem C9_counterexample :
    normalize_ean (some "789-12345-6785") = some "789123456785"
    ∧ normalize_ean (some "789-12345-6785") ≠ some "78912345678"
    ∧ val_ean (some "789-12345-6785") = .ok (some "789123456785") := by
  have hne : normalize_ean (some "789-12345-6785") = some "789123456785" := by decide
  refine ⟨hne, by decide, ?_⟩
  simp only [val_ean, hne]
  rw [if_pos (by decide)]

/-- Claim C9 (amended): `normalize_ean` strips all non-digit characters
(`none`/empty digit result gives `none`); a normalized EAN whose length is not
in {8, 12, 13, 14} makes validation fail with the domain error "EAN inválido";
but the concrete input "789-12345-6785" normalizes to "789123456785" of length
12, which is valid, so that create/update is accepted. -/
theorem C9_ean_normalization_amended :
    normalize_ean none = none
    ∧ (∀ s : String, normalize_ean (some s)
        = (if (⟨s.data.filter Char.isDigit⟩ : String) = "" then none
           else some ⟨s.data.filter Char.isDigit⟩))
    ∧ (∀ s d : String, normalize_ean (some s) = some d →
        ¬(d.length = 8 ∨ d.length = 12 ∨ d.length = 13 ∨ d.length = 14) →
        val_ean (some s) = .error "EAN inválido")
    ∧ normalize_ean (some "789-12345-6785") = some "789123456785"
    ∧ ("789123456785" : String).length = 12
    ∧ val_ean (some "789-12345-6785") = .ok (some "789123456785") := by
  have hne : normalize_ean (some "789-12345-6785") = some "789123456785" := by decide
  refine ⟨rfl, ?_, ?_, hne, by decide, ?_⟩
  case refine_3 =>
    simp only [val_ean, hne]
    rw [if_pos (by decide)]
  · intro s
    by_cases hs : s = ""
    · subst hs
      simp [normalize_ean]
    · simp only [normalize_ean, if_neg hs]
  · intro s d h hlen
    simp only [val_ean, h]
    rw [if_neg hlen]

/-- Witness for C9 (amended) at a concrete input: an input with 11 digits is
rejected with the EAN domain error. -/
theorem C9_witness :
    normalize_ean (some "789-1234-5678") = some "78912345678"
    ∧ val_ean (some "789-1234-5678") = .error "EAN inválido" := by
  have h1 : normalize_ean (some "789-1234-5678") = some "78912345678" := by decide
  exact ⟨h1, C9_ean_normalization_amended.2.2.1 _ _ h1 (by decide)⟩

/-! ## Inventory reconciliation (services.py: `conciliar_inventario`) -/

/-- models.py `InventoryCount` (the columns reconciliation reads/writes). -/
structure InventoryCount where
  id : Nat
  product_id : Nat
  qtd_contada : ℚ
  qtd_atual : ℚ
  conciliado : Bool
deriving DecidableEq, Repr

/-- models.py `InventorySession` with its counts. -/
structure InventorySession where
  id : Nat
  store_id : Nat
  aberta : Bool
  counts : List InventoryCount
deriving DecidableEq, Repr

/-- services.py `conciliar_inventario`: for every unreconciled count with a
difference, emit one adjustment StockMove and mark it reconciled, then close
the session.  Returns the updated session, the emitted moves, and the
(entradas, saidas) counters the source returns. -/
def conciliar_inventario (store_id : Nat) (sess? : Option InventorySession) :
    Except String (InventorySession × List SMove × Nat × Nat) :=
  match sess? with
  | none => .error "Sessão inválida"
  | some sess =>
    if sess.store_id = store_id ∧ sess.aberta = true then
      if sess.counts.length = 0 then .error "Sessão sem contagens"
      else
        let step := fun (acc : List InventoryCount × List SMove × Nat × Nat)
            (ic : InventoryCount) =>
          if ic.conciliado then (acc.1 ++ [ic], acc.2.1, acc.2.2.1, acc.2.2.2)
          else
            let dif := as_qtd ic.qtd_contada - as_qtd ic.qtd_atual
            if dif = 0 then
              (acc.1 ++ [{ ic with conciliado := true }], acc.2.1, acc.2.2.1, acc.2.2.2)
            else
              let m : SMove :=
                { store_id := store_id, product_id := ic.product_id,
                  tipo := if 0 < dif then .entrada_ajuste else .saida_ajuste,
                  qtd := as_qtd |dif|, custo := 0, ref_origem := some "inventory",
                  ref_id := some sess.id, motivo := some "Inventário" }
              (acc.1 ++ [{ ic with conciliado := true }], acc.2.1 ++ [m],
               acc.2.2.1 + (if 0 < dif then 1 else 0),
               acc.2.2.2 + (if dif < 0 then 1 else 0))
        let r := sess.counts.foldl step ([], [], 0, 0)
        .ok ({ sess with aberta := false, counts := r.1 }, r.2.1, r.2.2.1, r.2.2.2)
    else .error "Sessão inválida"

/-! ## Claim C8: reconciling twice -/

/-- Counterexample to C8 as stated: a session with one pending count (counted
5, system 3) reconciles once (emitting one `entrada_ajuste` of 2 and closing
the session), but the second call is NOT a successful no-op — it is rejected
with the domain error "Sessão inválida", because `conciliar_inventario`
requires `sess.aberta` and the first call closed the session; the reconciled
marks on the counts are never even consulted. -/
theorem C8_counterexample :
    conciliar_inventario 1 (some ⟨1, 1, true, [⟨1, 1, 5, 3, false⟩]⟩)
      = .ok (⟨1, 1, false, [⟨1, 1, 5, 3, true⟩]⟩,
             [⟨1, 1, .entrada_ajuste, 2, 0, some "inventory", some 1, some "Inventário"⟩],
             1, 0)
    ∧ conciliar_inventario 1 (some ⟨1, 1, false, [⟨1, 1, 5, 3, true⟩]⟩)
      = .error "Sessão inválida" := by
  constructor
  · norm_num [conciliar_inventario, as_qtd, quantize, halfUp, abs]
  · norm_num [conciliar_inventario]

/-- Claim C8 (amended): after a successful `conciliar_inventario`, the session
is closed (`aberta = false`), and calling `conciliar_inventario` again on the
resulting session fails with the domain error "Sessão inválida" — hence no
duplicate adjustment StockMoves are ever emitted by a second call, but the
second call is a rejected error, not a successful no-op. -/
theorem C8_reconcile_twice_amended :
    ∀ (store_id : Nat) (sess : InventorySession)
      (out : InventorySession × List SMove × Nat × Nat),
      conciliar_inventario store_id (some sess) = .ok out →
      out.1.aberta = false
      ∧ conciliar_inventario store_id (some out.1) = .error "Sessão inválida" := by
  intro store_id sess out heq
  have haberta : out.1.aberta = false := by
    simp only [conciliar_inventario] at heq
    split at heq
    · split at heq
      · exact absurd heq (by simp)
      · simp only [Except.ok.injEq] at heq
        subst heq
        rfl
    · exact absurd heq (by simp)
  refine ⟨haberta, ?_⟩
  have hcond : ¬(out.1.store_id = store_id ∧ out.1.aberta = true) := by
    rintro ⟨_, h2⟩
    rw [haberta] at h2
    exact Bool.false_ne_true h2
  simp only [conciliar_inventario]
  rw [if_neg hcond]

/-- Witness for C8 (amended) at a concrete input: the reconciled session from
the counterexample scenario is closed and rejected on a second call. -/
theorem C8_witness :
    (⟨1, 1, false, [⟨1, 1, 5, 3, true⟩]⟩ : InventorySession).aberta = false
    ∧ conciliar_inventario 1 (some ⟨1, 1, false, [⟨1, 1, 5, 3, true⟩]⟩)
        = .error "Sessão inválida" :=
  C8_reconcile_twice_amended 1 ⟨1, 1, true, [⟨1, 1, 5, 3, false⟩]⟩
    (⟨1, 1, false, [⟨1, 1, 5, 3, true⟩]⟩,
     [⟨1, 1, .entrada_ajuste, 2, 0, some "inventory", some 1, some "Inventário"⟩], 1, 0)
    (by norm_num [conciliar_inventario, as_qtd, quantize, halfUp, abs])

/-- Witness for C10 at a concrete input: a soft-deleted but `ativa`, in-window
promo of priority 1 with a 10% rule is still selected and applied. -/
theorem C10_witness :
    ∃ sale1 si,
      adicionar_item_venda (some ⟨1, 1, .aberta, 0, 0, 0, []⟩)
          (some ⟨1, 1, 10, 0, true, false⟩) 2
          [⟨9, 1, .desconto_percentual 10, 0, none, 1, true, true⟩] 0 1
        = .ok (sale1, si)
      ∧ si.promo_id
          = some (⟨9, 1, RegraPromo.desconto_percentual 10, 0, none, 1, true, true⟩ : Promo).id
      ∧ si.desconto = as_money ((as_money
          (⟨1, 1, 10, 0, true, false⟩ : Product).preco_venda * as_qtd 2) * ((10 : ℚ) / 100)) :=
  C10_promo_ignores_soft_delete.2 ⟨1, 1, .aberta, 0, 0, 0, []⟩
    ⟨1, 1, 10, 0, true, false⟩ 2
    [⟨9, 1, .desconto_percentual 10, 0, none, 1, true, true⟩] 0 1
    ⟨9, 1, .desconto_percentual 10, 0, none, 1, true, true⟩ 10
    rfl rfl rfl rfl
    (by norm_num [as_qtd, quantize, halfUp])
    (by simp [first_min_prioridade, promo_filter, List.filter])
    rfl rfl

/-! ## Purchasing workflow (services.py: `receber_compra`)

`receber_compra` loads the purchase and its items, emits one `entrada_compra`
StockMove per received line, then re-derives the received quantity by querying
ALL `entrada_compra` moves referencing the purchase (the session autoflushes,
so the moves added by the current call are included).  The embedding receives
the loaded purchase, the already-persisted moves, and the received lines, and
returns the updated purchase, the new moves, and any Payable created. -/

/-- `purchase_status_enum` from models.py. -/
inductive PurchaseStatus
  | rascunho
  | emitida
  | parcialmente_recebida
  | recebida
  | cancelada
deriving DecidableEq, Repr

/-- models.py `PurchaseItem` (the columns receiving reads). -/
structure PurchaseItem where
  id : Nat
  product_id : Nat
  qtd : ℚ
  custo : ℚ
  desconto : ℚ
deriving DecidableEq, Repr

/-- models.py `Purchase` with its items. -/
structure Purchase where
  id : Nat
  store_id : Nat
  supplier_id : Nat
  status : PurchaseStatus
  total_previsto : ℚ
  total_recebido : ℚ
  items : List PurchaseItem
deriving DecidableEq, Repr

/-- models.py `Payable` (the columns receiving writes). -/
structure Payable where
  store_id : Nat
  origem : String
  ref_id : Nat
  fornecedor_id : Nat
  valor : ℚ
deriving DecidableEq, Repr

/-- The Payable row `receber_compra` creates on full receipt. -/
def payable_for (c : Purchase) (valor : ℚ) : Payable :=
  { store_id := c.store_id, origem := "purchase", ref_id := c.id,
    fornecedor_id := c.supplier_id, valor := valor }

/-- services.py `ItemRecebimentoDTO`. -/
structure ItemRecebimentoDTO where
  product_id : Nat
  qtd : ℚ
  custo : Option ℚ
deriving DecidableEq, Repr

/-- One insertion into the Python dict
`{i.product_id: i for i in purchase_items}`: a later item with the same
product id overwrites the earlier one, keeping its position. -/
def dict_insert (m : List PurchaseItem) (i : PurchaseItem) : List PurchaseItem :=
  if m.any (fun j => j.product_id == i.product_id) then
    m.map (fun j => if j.product_id == i.product_id then i else j)
  else m ++ [i]

/-- The `itens_map` dict of `receber_compra`, as a keyed list. -/
def itens_map (c : Purchase) : List PurchaseItem := c.items.foldl dict_insert []

/-- `qtd_pedido`: total ordered quantity, summed over the dict's values. -/
def qtd_pedido (c : Purchase) : ℚ :=
  (itens_map c).foldl (fun a i => a + as_qtd i.qtd) (as_qtd 0)

/-- The WHERE clause of the received-quantity query: moves of this store with
`ref_origem = "purchase"`, `ref_id = purchase id` and `tipo = entrada_compra`. -/
def entrada_da_compra (c : Purchase) (m : SMove) : Bool :=
  m.store_id == c.store_id && m.ref_origem == some "purchase"
    && m.ref_id == some c.id && m.tipo == .entrada_compra

/-- `qtd_recebida`: aggregate received quantity re-derived by summing the
persisted `entrada_compra` moves tied to this purchase. -/
def qtd_recebida (c : Purchase) (moves : List SMove) : ℚ :=
  (moves.filter (entrada_da_compra c)).foldl (fun a m => a + as_qtd m.qtd) (as_qtd 0)

/-- The per-received-line loop of `receber_compra`: validates membership and
positivity, accumulates `total_recebido` and the new `entrada_compra` moves. -/
def receber_loop (im : List PurchaseItem) (c : Purchase) :
    List ItemRecebimentoDTO → ℚ → List SMove → Except String (ℚ × List SMove)
  | [], total, ms => .ok (total, ms)
  | r :: rest, total, ms =>
    match im.find? (fun i => i.product_id == r.product_id) with
    | none => .error "Produto não pertence ao pedido"
    | some base =>
      if 0 < as_qtd r.qtd then
        let custo_rec := as_money (r.custo.getD base.custo)
        let sm : SMove :=
          { store_id := c.store_id, product_id := r.product_id,
            tipo := .entrada_compra, qtd := as_qtd r.qtd, custo := custo_rec,
            ref_origem := some "purchase", ref_id := some c.id }
        receber_loop im c rest (total + as_money (as_qtd r.qtd * custo_rec)) (ms ++ [sm])
      else .error "Quantidade deve ser positiva"

/-- services.py `receber_compra`. -/
def receber_compra (compra? : Option Purchase) (prev_moves : List SMove)
    (itens : List ItemRecebimentoDTO) :
    Except String (Purchase × List SMove × List Payable) :=
  match compra? with
  | none => .error "Compra não pode ser recebida"
  | some compra =>
    if compra.status = .emitida ∨ compra.status = .parcialmente_recebida then
      if (itens_map compra).length = 0 then .error "Compra sem itens"
      else
        match receber_loop (itens_map compra) compra itens compra.total_recebido [] with
        | .error e => .error e
        | .ok (total_receb, new_moves) =>
          let qr := qtd_recebida compra (prev_moves ++ new_moves)
          let st := if qr = 0 then PurchaseStatus.emitida
                    else if qr < qtd_pedido compra then PurchaseStatus.parcialmente_recebida
                    else PurchaseStatus.recebida
          let compra2 : Purchase :=
            { compra with total_recebido := as_money total_receb, status := st }
          let valor := as_money (if 0 < compra2.total_previsto then compra2.total_previsto
                                 else compra2.total_recebido)
          let pays : List Payable :=
            if st = .recebida then
              if 0 < valor then [payable_for compra valor]
              else []
            else []
          .ok (compra2, new_moves, pays)
    else .error "Compra não pode ser recebida"

/-- One `receber_compra` call in a sequence: an error rolls the transaction
back (no state change); success appends the new moves and payables. -/
structure RecState where
  compra : Purchase
  moves : List SMove
  payables : List Payable
deriving DecidableEq, Repr

def receber_step (st : RecState) (itens : List ItemRecebimentoDTO) : RecState :=
  match receber_compra (some st.compra) st.moves itens with
  | .error _ => st
  | .ok (c, new_moves, pays) => ⟨c, st.moves ++ new_moves, st.payables ++ pays⟩

lemma mem_dict_insert {m : List PurchaseItem} {i x : PurchaseItem}
    (hx : x ∈ dict_insert m i) : x ∈ m ∨ x = i := by
  unfold dict_insert at hx
  split at hx
  · obtain ⟨j, hj, hjx⟩ := List.mem_map.mp hx
    by_cases hc : (j.product_id == i.product_id) = true
    · rw [if_pos hc] at hjx
      exact Or.inr hjx.symm
    · rw [if_neg hc] at hjx
      exact Or.inl (hjx ▸ hj)
  · rcases List.mem_append.mp hx with h | h
    · exact Or.inl h
    · exact Or.inr (List.mem_singleton.mp h)

lemma mem_foldl_dict_insert :
    ∀ (l acc : List PurchaseItem), ∀ x ∈ l.foldl dict_insert acc, x ∈ acc ∨ x ∈ l := by
  intro l
  induction l with
  | nil => intro acc x hx; exact Or.inl (by simpa using hx)
  | cons a rest ih =>
    intro acc x hx
    rcases ih (dict_insert acc a) x (by simpa using hx) with h | h
    · rcases mem_dict_insert h with h' | h'
      · exact Or.inl h'
      · exact Or.inr (by simp [h'])
    · exact Or.inr (by simp [h])

lemma mem_itens_map {c : Purchase} {x : PurchaseItem} (hx : x ∈ itens_map c) :
    x ∈ c.items := by
  rcases mem_foldl_dict_insert c.items [] x hx with h | h
  · simp at h
  · exact h

lemma foldl_add_qtd_pos (l : List PurchaseItem) (s : ℚ) (hs : 0 ≤ s)
    (hall : ∀ i ∈ l, 0 < as_qtd i.qtd) (hne : l ≠ []) :
    0 < l.foldl (fun a i => a + as_qtd i.qtd) s := by
  induction l generalizing s with
  | nil => exact absurd rfl hne
  | cons a rest ih =>
    by_cases hr : rest = []
    · subst hr
      have := hall a (by simp)
      simpa using by linarith
    · exact ih (s + as_qtd a.qtd)
        (by have := hall a (by simp); linarith)
        (fun i hi => hall i (by simp [hi])) hr

lemma qtd_pedido_pos {c : Purchase} (hlen : ¬(itens_map c).length = 0)
    (hall : ∀ i ∈ c.items, 0 < as_qtd i.qtd) : 0 < qtd_pedido c := by
  unfold qtd_pedido
  refine foldl_add_qtd_pos _ _ (by rw [as_qtd_zero]) ?_ ?_
  · intro i hi
    exact hall i (mem_itens_map hi)
  · intro hcontra
    exact hlen (by rw [hcontra]; rfl)

lemma receber_compra_ok_inv {c : Purchase} {prev : List SMove}
    {itens : List ItemRecebimentoDTO} {c' : Purchase} {mv : List SMove}
    {pays : List Payable}
    (h : receber_compra (some c) prev itens = .ok (c', mv, pays)) :
    (c.status = .emitida ∨ c.status = .parcialmente_recebida)
    ∧ ¬(itens_map c).length = 0
    ∧ ∃ total_receb,
        receber_loop (itens_map c) c itens c.total_recebido [] = .ok (total_receb, mv)
        ∧ c' = { c with
                 total_recebido := as_money total_receb,
                 status := if qtd_recebida c (prev ++ mv) = 0 then PurchaseStatus.emitida
                   else if qtd_recebida c (prev ++ mv) < qtd_pedido c
                   then PurchaseStatus.parcialmente_recebida
                   else PurchaseStatus.recebida }
        ∧ pays = (if c'.status = .recebida then
              if 0 < as_money (if 0 < c.total_previsto then c.total_previsto
                               else as_money total_receb)
              then [payable_for c (as_money (if 0 < c.total_previsto then c.total_previsto
                                             else as_money total_receb))]
              else []
            else []) := by
  simp only [receber_compra] at h
  split at h
  · rename_i hstats
    split at h
    · exact absurd h (by simp)
    · rename_i hlen
      split at h
      · exact absurd h (by simp)
      · rename_i out total_receb new_moves heq
        simp only [Except.ok.injEq, Prod.mk.injEq] at h
        obtain ⟨h1, h2, h3⟩ := h
        subst h1 h2 h3
        exact ⟨hstats, hlen, total_receb, heq, rfl, rfl⟩
  · exact absurd h (by simp)

lemma receber_compra_blocked {c : Purchase} (hst : c.status = .recebida)
    (prev : List SMove) (itens : List ItemRecebimentoDTO) :
    receber_compra (some c) prev itens = .error "Compra não pode ser recebida" := by
  simp only [receber_compra, hst]
  rw [if_neg (by rintro (h | h) <;> exact PurchaseStatus.noConfusion h)]

lemma length_ite_le_one {α : Type} (c1 c2 : Prop) [Decidable c1] [Decidable c2] (x : α) :
    (if c1 then if c2 then [x] else ([] : List α) else []).length ≤ 1 := by
  split
  · split
    · exact le_refl _
    · exact Nat.zero_le _
  · exact Nat.zero_le _

lemma receber_step_inv {P : ℚ} (hP : as_money P = P) (st : RecState)
    (itens : List ItemRecebimentoDTO)
    (h1 : st.compra.total_previsto = P)
    (h2 : st.payables.length ≤ 1)
    (h3 : st.compra.status ≠ .recebida → st.payables = [])
    (h4 : st.compra.status = .recebida → 0 < P → st.payables.length = 1) :
    (receber_step st itens).compra.total_previsto = P
    ∧ (receber_step st itens).payables.length ≤ 1
    ∧ ((receber_step st itens).compra.status ≠ .recebida
        → (receber_step st itens).payables = [])
    ∧ ((receber_step st itens).compra.status = .recebida → 0 < P
        → (receber_step st itens).payables.length = 1) := by
  unfold receber_step
  rcases heq : receber_compra (some st.compra) st.moves itens with e | ⟨c', mv, pays⟩
  · exact ⟨h1, h2, h3, h4⟩
  · obtain ⟨hstok, hlen, total_receb, hloop, hc', hpays⟩ := receber_compra_ok_inv heq
    have hstat_ne : st.compra.status ≠ .recebida := by
      rcases hstok with h | h <;> (rw [h]; exact fun hx => PurchaseStatus.noConfusion hx)
    have hpe : st.payables = [] := h3 hstat_ne
    have hprev : c'.total_previsto = P := by rw [hc']; exact h1
    refine ⟨hprev, ?_, ?_, ?_⟩
    · simp only [hpe, List.nil_append, hpays]
      exact length_ite_le_one _ _ _
    · intro hne
      simp only [hpe, List.nil_append, hpays, if_neg hne]
    · intro hrec hPpos
      simp only [hpe, List.nil_append, hpays, if_pos hrec]
      rw [if_pos]
      · rfl
      · rw [h1, if_pos hPpos, hP]
        exact hPpos

lemma foldl_receber_inv {P : ℚ} (hP : as_money P = P)
    (calls : List (List ItemRecebimentoDTO)) (st : RecState)
    (h1 : st.compra.total_previsto = P)
    (h2 : st.payables.length ≤ 1)
    (h3 : st.compra.status ≠ .recebida → st.payables = [])
    (h4 : st.compra.status = .recebida → 0 < P → st.payables.length = 1) :
    (calls.foldl receber_step st).compra.total_previsto = P
    ∧ (calls.foldl receber_step st).payables.length ≤ 1
    ∧ ((calls.foldl receber_step st).compra.status ≠ .recebida
        → (calls.foldl receber_step st).payables = [])
    ∧ ((calls.foldl receber_step st).compra.status = .recebida → 0 < P
        → (calls.foldl receber_step st).payables.length = 1) := by
  induction calls generalizing st with
  | nil => exact ⟨h1, h2, h3, h4⟩
  | cons itens rest ih =>
    obtain ⟨g1, g2, g3, g4⟩ := receber_step_inv hP st itens h1 h2 h3 h4
    exact ih (receber_step st itens) g1 g2 g3 g4

/-! ## Claim C5: receber_compra status derivation and Payable creation -/

/-- Counterexample to C5 as stated: a purchase whose single item has cost 0
(allowed: `criar_pedido_compra` only requires cost ≥ 0) reaches full receipt
with `total_previsto = 0` and `total_recebido = 0`, so the Payable guard
`valor > 0` fails and NO Payable is created on the call that reaches full
receipt — not "exactly one". -/
theorem C5_counterexample :
    receber_compra (some ⟨1, 1, 1, .emitida, 0, 0, [⟨1, 1, 5, 0, 0⟩]⟩) []
        [⟨1, 5, none⟩]
      = .ok (⟨1, 1, 1, .recebida, 0, 0, [⟨1, 1, 5, 0, 0⟩]⟩,
             [⟨1, 1, .entrada_compra, 5, 0, some "purchase", some 1, none⟩], [])
    ∧ (⟨1, 1, 1, .recebida, 0, 0, [⟨1, 1, 5, 0, 0⟩]⟩ : Purchase).status = .recebida := by
  constructor
  · have e1 : as_qtd (5 : ℚ) = 5 := by norm_num [as_qtd, quantize, halfUp]
    have e2 : as_qtd (0 : ℚ) = 0 := as_qtd_zero
    have e3 : as_money (0 : ℚ) = 0 := as_money_zero
    simp [receber_compra, receber_loop, itens_map, dict_insert, payable_for,
      qtd_pedido, qtd_recebida, entrada_da_compra, List.filter, List.find?,
      e1, e2, e3]
  · rfl

/-- Claim C5 (amended): a successful `receber_compra` derives its status from
the summed persisted `entrada_compra` moves referencing the purchase (the new
moves included): the status becomes `recebida` exactly when that sum is ≥ the
ordered quantity (summed over the per-product receiving map, where a later
duplicate product line overrides an earlier one); a purchase already
`recebida` rejects any further `receber_compra` call; and across any sequence
of `receber_compra` calls starting from an `emitida` purchase, at most one
Payable is ever created — exactly one whenever the purchase ends `recebida`
and its expected total `total_previsto` is positive (with a zero expected
total, full receipt can create none, as the counterexample shows). -/
theorem C5_receber_amended :
    (∀ (c : Purchase) (prev : List SMove) (itens : List ItemRecebimentoDTO)
        (c' : Purchase) (mv : List SMove) (pays : List Payable),
        receber_compra (some c) prev itens = .ok (c', mv, pays) →
        (∀ i ∈ c.items, 0 < as_qtd i.qtd) →
        ((c'.status = .recebida ↔ qtd_pedido c ≤ qtd_recebida c (prev ++ mv))
         ∧ pays.length ≤ 1))
    ∧ (∀ c : Purchase, c.status = .recebida →
        ∀ (prev : List SMove) (itens : List ItemRecebimentoDTO),
        receber_compra (some c) prev itens = .error "Compra não pode ser recebida")
    ∧ (∀ (p0 : Purchase) (calls : List (List ItemRecebimentoDTO)),
        as_money p0.total_previsto = p0.total_previsto → p0.status = .emitida →
        (calls.foldl receber_step ⟨p0, [], []⟩).payables.length ≤ 1
        ∧ ((calls.foldl receber_step ⟨p0, [], []⟩).compra.status ≠ .recebida →
            (calls.foldl receber_step ⟨p0, [], []⟩).payables = [])
        ∧ ((calls.foldl receber_step ⟨p0, [], []⟩).compra.status = .recebida →
            0 < p0.total_previsto →
            (calls.foldl receber_step ⟨p0, [], []⟩).payables.length = 1)) := by
  refine ⟨?_, ?_, ?_⟩
  · intro c prev itens c' mv pays h hall
    obtain ⟨hstok, hlen, total_receb, hloop, hc', hpays⟩ := receber_compra_ok_inv h
    have hqp : 0 < qtd_pedido c := qtd_pedido_pos hlen hall
    have hstatus : c'.status
        = (if qtd_recebida c (prev ++ mv) = 0 then PurchaseStatus.emitida
           else if qtd_recebida c (prev ++ mv) < qtd_pedido c
           then PurchaseStatus.parcialmente_recebida
           else PurchaseStatus.recebida) := by rw [hc']
    constructor
    · rw [hstatus]
      by_cases h0 : qtd_recebida c (prev ++ mv) = 0
      · rw [if_pos h0]
        exact iff_of_false (fun hx => PurchaseStatus.noConfusion hx)
          (by rw [h0]; exact not_le.mpr hqp)
      · rw [if_neg h0]
        by_cases h1 : qtd_recebida c (prev ++ mv) < qtd_pedido c
        · rw [if_pos h1]
          exact iff_of_false (fun hx => PurchaseStatus.noConfusion hx) (not_le.mpr h1)
        · rw [if_neg h1]
          exact iff_of_true rfl (not_lt.mp h1)
    · rw [hpays]
      exact length_ite_le_one _ _ _
  · intro c hst prev itens
    exact receber_compra_blocked hst prev itens
  · intro p0 calls hP hst0
    have hbase4 : (⟨p0, [], []⟩ : RecState).compra.status = .recebida
        → 0 < p0.total_previsto → ([] : List Payable).length = 1 := by
      intro hr
      rw [hst0] at hr
      exact absurd hr (fun hx => PurchaseStatus.noConfusion hx)
    obtain ⟨g1, g2, g3, g4⟩ := foldl_receber_inv hP calls ⟨p0, [], []⟩ rfl
      (Nat.zero_le _) (fun _ => rfl) hbase4
    exact ⟨g2, g3, g4⟩

/-- Witness for C5 (amended): the claim's scenario with positive costs — a
purchase of two items of qty 5 and 5 (cost 2.00 each, `total_previsto` 20),
received as 5 then 5, followed by a zero-quantity call and an empty call:
the purchase ends `recebida` with exactly one Payable. -/
theorem C5_witness :
    (([[(⟨1, 5, none⟩ : ItemRecebimentoDTO)], [⟨2, 5, none⟩], [⟨1, 0, none⟩], []].foldl
        receber_step
        ⟨⟨1, 1, 1, .emitida, 20, 0, [⟨1, 1, 5, 2, 0⟩, ⟨2, 2, 5, 2, 0⟩]⟩, [], []⟩)
      ).compra.status = .recebida
    ∧ (([[(⟨1, 5, none⟩ : ItemRecebimentoDTO)], [⟨2, 5, none⟩], [⟨1, 0, none⟩], []].foldl
        receber_step
        ⟨⟨1, 1, 1, .emitida, 20, 0, [⟨1, 1, 5, 2, 0⟩, ⟨2, 2, 5, 2, 0⟩]⟩, [], []⟩)
      ).payables.length = 1 := by
  have hst : (([[(⟨1, 5, none⟩ : ItemRecebimentoDTO)], [⟨2, 5, none⟩], [⟨1, 0, none⟩],
      []].foldl receber_step
        ⟨⟨1, 1, 1, .emitida, 20, 0, [⟨1, 1, 5, 2, 0⟩, ⟨2, 2, 5, 2, 0⟩]⟩, [], []⟩)
      ).compra.status = .recebida := by
    have e1 : as_qtd (5 : ℚ) = 5 := by norm_num [as_qtd, quantize, halfUp]
    have e2 : as_qtd (0 : ℚ) = 0 := as_qtd_zero
    have e3 : as_money (0 : ℚ) = 0 := as_money_zero
    have e4 : as_money (2 : ℚ) = 2 := by norm_num [as_money, quantize, halfUp]
    have e5 : as_money (10 : ℚ) = 10 := by norm_num [as_money, quantize, halfUp]
    have e6 : as_money (20 : ℚ) = 20 := by norm_num [as_money, quantize, halfUp]
    simp [receber_step, receber_compra, receber_loop, itens_map, dict_insert,
      payable_for, qtd_pedido, qtd_recebida, entrada_da_compra, List.filter,
      List.find?, e1, e2, e3, e4, e5, e6]
  refine ⟨hst, ?_⟩
  exact (C5_receber_amended.2.2 ⟨1, 1, 1, .emitida, 20, 0, [⟨1, 1, 5, 2, 0⟩, ⟨2, 2, 5, 2, 0⟩]⟩
    [[⟨1, 5, none⟩], [⟨2, 5, none⟩], [⟨1, 0, none⟩], []]
    (by norm_num [as_money, quantize, halfUp]) rfl).2.2 hst (by norm_num)

end OpenMarket
